import Mathlib

/-!
Verification development for the OpenGrowBox-HA environmental-control core.

The definitions below are a shallow embedding of the Python sources
`OGBController/OGBDevices/Device.py` and
`OGBController/managers/UltraInstinctManager.py`.  Python numbers are
modelled as exact rationals (`ℚ`), `None`-able attributes as `Option`,
dictionaries as structures, and loops with early `return` as structural
recursion over lists.  Methods that only mutate `self` and
issue service calls are modelled as functions from a device-state record
to a new state together with the list of issued calls.
-/

/-- Truncation toward zero, the semantics of Python's `int(float_value)`. -/
def ratTrunc (q : ℚ) : ℤ :=
  if 0 ≤ q then ⌊q⌋ else ⌈q⌉

/-- Python's `value or 0` for an optional numeric `value`: `None` becomes `0`
(and a stored `0` is falsy, but `0 or 0` is again `0`, so truthiness of the
number itself is immaterial here). -/
def pyOrZero (value : Option ℚ) : ℚ :=
  match value with
  | none => 0
  | some q => q

/-- Python truthiness of an optional number (`None` and `0` are falsy),
used by `_calculate_gradients` in `if curr.get("tent_temp") and ...`. -/
def truthyNum (o : Option ℚ) : Bool :=
  match o with
  | none => false
  | some q => q != 0

/-- Occurrence test for a character pattern inside a character list, by
checking `isPrefixOf` at every suffix. -/
def listIsInfix (pat : List Char) : List Char → Bool
  | [] => pat.isEmpty
  | c :: rest => pat.isPrefixOf (c :: rest) || listIsInfix pat rest

/-- Substring test on strings, `containsStr s pat = true` iff `pat` occurs
in `s`, mirroring Python's `pat in s`. -/
def containsStr (s pat : String) : Bool :=
  listIsInfix pat.data s.data

/-- Python's `str.lower()`, character by character. -/
def lowerStr (s : String) : String :=
  String.mk (s.data.map Char.toLower)

/-- `Device.clamp_voltage` (Device.py lines 1679-1683):
`max(self.minVoltage, min(self.maxVoltage, value or 0))` when both bounds
are set, else the value unchanged. -/
def clamp_voltage (minVoltage maxVoltage : Option ℚ) (value : Option ℚ) :
    Option ℚ :=
  match minVoltage, maxVoltage with
  | some mn, some mx => some (max mn (min mx (pyOrZero value)))
  | _, _ => value

/-- `Device.clamp_duty_cycle` (Device.py lines 1685-1694): `None` falls back
to `50`; missing bounds default to `0` / `100`; the clamped value is passed
through Python's `int(...)`, i.e. truncated toward zero. -/
def clamp_duty_cycle (minDuty maxDuty : Option ℚ) (value : Option ℚ) : ℚ :=
  match value with
  | none => 50
  | some v =>
      let min_duty : ℚ := match minDuty with | some m => m | none => 0
      let max_duty : ℚ := match maxDuty with | some m => m | none => 100
      ((ratTrunc (max min_duty (min max_duty v)) : ℤ) : ℚ)

/-- A raw entity value as delivered by the platform: a number (covering
Python ints, floats and numeric strings, all of which `float(...)`
accepts), a non-numeric string such as the `"unavailable"` / `"unknown"`
sentinels (on which `float(...)` raises), `None`, or a missing `"value"`
key in the entity dictionary. -/
inductive RawValue
  | number (q : ℚ)
  | invalid (s : String)
  | noneVal
  | absent
  deriving DecidableEq

/-- One entity dictionary as stored in `self.switches` / `self.options` /
`self.sensors`: its `entity_id` and its current `value`. -/
structure Entity where
  entity_id : String
  value : RawValue
  deriving DecidableEq

/-- The mutable per-device state of `Device` (Device.py `__init__`),
restricted to the attributes the verified operations read or write.
`Option` fields model attributes that may hold `None`; `islightON`,
`sunPhaseActive` and `pendingWorkMode` are attributes that subclasses may
not define at all (`hasattr` checks), with `none` meaning absent/falsy
and `some b` recording the truthiness of a present attribute. -/
structure DevState where
  deviceType : String
  isDimmable : Bool
  isSpecialDevice : Bool
  isAcInfinDev : Bool
  isRunning : Bool
  inWorkMode : Bool
  inActiveControl : Bool
  is_minmax_active : Bool
  voltageFromNumber : Bool
  voltage : Option ℚ
  dutyCycle : Option ℚ
  minVoltage : Option ℚ
  maxVoltage : Option ℚ
  minDuty : Option ℚ
  maxDuty : Option ℚ
  initVoltage : ℚ
  islightON : Option Bool
  sunPhaseActive : Option Bool
  pendingWorkMode : Option Bool
  switches : List Entity
  options : List Entity
  sensors : List Entity
  deriving DecidableEq

/-- The inner helper `convert_to_int` of `Device.checkForControlValue`
(Device.py lines 625-640): `float(value)` (multiplied by 10 when
requested) truncated by `int(...)`; conversion errors yield `None`. -/
def convert_to_int (value : RawValue) (multiply_by_10 : Bool) : Option ℤ :=
  match value with
  | RawValue.number q => some (ratTrunc (if multiply_by_10 then q * 10 else q))
  | _ => none

/-- `any(key in eid.lower() for key in ["_duty","_intensity","_dutyCycle"])`,
the sensor-side relevance test of `checkForControlValue`. -/
def relevantSensorId (eid : String) : Bool :=
  containsStr (lowerStr eid) "_duty" ||
    containsStr (lowerStr eid) "_intensity" ||
    containsStr (lowerStr eid) "_dutyCycle"

/-- `any(key in eid for key in ["_duty","_intensity","_dutyCycle"])`, the
option-side relevance test (no lowercasing there). -/
def relevantOptionId (eid : String) : Bool :=
  containsStr eid "_duty" || containsStr eid "_intensity" ||
    containsStr eid "_dutyCycle"

/-- Processing of one sensor inside the `for sensor in self.sensors` loop of
`Device.checkForControlValue` (Device.py lines 643-677): a relevant sensor
with a convertible value is routed to `voltage` for kind `Light` and to
`dutyCycle` for the five fan/humidity kinds, with in-place clamping when
both bounds are set and narrow the 0-100 window. -/
def processSensor (s : DevState) (sensor : Entity) : DevState :=
  if relevantSensorId sensor.entity_id then
    match sensor.value with
    | RawValue.noneVal => s
    | RawValue.absent => s
    | v =>
        match convert_to_int v s.isAcInfinDev with
        | none => s
        | some cv =>
            if s.deviceType = "Light" then
              let s1 := { s with voltage := some (cv : ℚ) }
              match s1.minVoltage, s1.maxVoltage with
              | some mn, some mx =>
                  if 0 < mn ∨ mx < 100 then
                    { s1 with voltage :=
                        clamp_voltage (some mn) (some mx) s1.voltage }
                  else s1
              | _, _ => s1
            else if s.deviceType = "Exhaust" ∨ s.deviceType = "Intake" ∨
                s.deviceType = "Ventilation" ∨ s.deviceType = "Humidifier" ∨
                s.deviceType = "Dehumidifier" then
              let s1 := { s with dutyCycle := some (cv : ℚ) }
              match s1.minDuty, s1.maxDuty with
              | some mn, some mx =>
                  if 0 < mn ∨ mx < 100 then
                    { s1 with dutyCycle := some (max mn (min mx (cv : ℚ))) }
                  else s1
              | _, _ => s1
            else s
  else s

/-- The `for option in self.options` loop of `Device.checkForControlValue`
(Device.py lines 680-710).  For kind `Light` the branch first sets
`voltageFromNumber = True`, so the ×10 scaling is applied on this path
regardless of the AC-Infinity flag; a successful conversion stores the
value (clamped only when `is_minmax_active`) and returns early, a failed
one falls through to the next option.  A missing `"value"` key defaults
to `0` (`option.get("value", 0)`). -/
def processOptions (s : DevState) : List Entity → DevState
  | [] => s
  | option :: rest =>
      if relevantOptionId option.entity_id then
        let raw := match option.value with
          | RawValue.absent => RawValue.number 0
          | v => v
        if s.deviceType = "Light" then
          let s1 := { s with voltageFromNumber := true }
          match convert_to_int raw (s1.isAcInfinDev || s1.voltageFromNumber) with
          | some cv =>
              let s2 := { s1 with voltage := some (cv : ℚ) }
              if s2.is_minmax_active ∧ s2.minVoltage.isSome ∧
                  s2.maxVoltage.isSome then
                { s2 with voltage :=
                    clamp_voltage s2.minVoltage s2.maxVoltage s2.voltage }
              else s2
          | none => processOptions s1 rest
        else
          match convert_to_int raw s.isAcInfinDev with
          | some cv =>
              let s2 := { s with dutyCycle := some (cv : ℚ) }
              if s2.is_minmax_active ∧ s2.minDuty.isSome ∧ s2.maxDuty.isSome
                  then
                { s2 with dutyCycle := some (max (s2.minDuty.getD 0)
                    (min (s2.maxDuty.getD 0) (cv : ℚ))) }
              else s2
          | none => processOptions s rest
      else processOptions s rest

/-- `Device.checkForControlValue` (Device.py lines 608-710): skipped while
under active control, for non-dimmable devices, or without sensor/option
data; otherwise every sensor is processed in order, then options are
scanned with early return on the first successful store. -/
def checkForControlValue (s : DevState) : DevState :=
  if s.inActiveControl then s
  else if !s.isDimmable then s
  else if s.sensors = [] ∧ s.options = [] then s
  else
    let s1 := s.sensors.foldl processSensor s
    processOptions s1 s1.options

/-- One capability entry of the datastore registry as initialized by
`Device.identifyCapabilities` (Device.py lines 510-514):
`{"state": bool, "count": int, "devEntities": [names]}`. -/
structure CapEntry where
  state : Bool
  count : ℕ
  devEntities : List String
  deriving DecidableEq

/-- The entry every capability starts from
(`{"state": False, "count": 0, "devEntities": []}`). -/
def initialCapEntry : CapEntry :=
  { state := false, count := 0, devEntities := [] }

/-- The per-capability registration step of `Device.identifyCapabilities`
(Device.py lines 522-534): an already-registered device name is skipped,
otherwise `state` is forced to `True`, `count` is incremented and the
name appended to `devEntities`. -/
def registerCapability (cap : CapEntry) (deviceName : String) : CapEntry :=
  if deviceName ∈ cap.devEntities then cap
  else
    { state := true
      count := cap.count + 1
      devEntities := cap.devEntities ++ [deviceName] }

/-- The guards at the head of `Device.turn_on` (Device.py lines 741-758):
an offline device aborts, and a call arriving less than 3 seconds after
the previous accepted one is rejected without touching
`_last_turn_on_time`.  Returns whether the body (the actual command
dispatch) is reached, together with the updated `_last_turn_on_time`. -/
def turn_on_gate (online : Bool) (lastTurnOnTime : ℚ) (now : ℚ) :
    Bool × ℚ :=
  if !online then (false, lastTurnOnTime)
  else if now - lastTurnOnTime < 3 then (false, lastTurnOnTime)
  else (true, now)

/-- A Home-Assistant service invocation issued through
`hass.services.async_call`. -/
inductive HassCall
  | svc (domain service entity : String)
  | svcOpt (domain service entity optionName : String)
  | svcNum (domain service entity : String) (value : ℚ)
  deriving DecidableEq

/-- `Device.turn_off` (Device.py lines 1114-1296): AC-Infinity devices are
driven through `select` entities; otherwise the first switch entity is
dispatched on the device type.  For kinds `Exhaust`, `Intake` and `CO2`
the dimmable branch is a bare `return` — no service call and no state
change.  `Ventilation` is the only branch that keeps looping over all
switch entities. -/
def turn_off (s : DevState) : DevState × List HassCall :=
  if s.isAcInfinDev then
    let fromSwitches := s.switches.filter
      (fun e => containsStr e.entity_id "select.")
    let entity_ids := if fromSwitches = [] then
        s.options.filter (fun e => containsStr e.entity_id "select.")
      else fromSwitches
    let calls := List.flatten (entity_ids.map (fun e =>
      HassCall.svcOpt "select" "select_option" e.entity_id "Off" ::
        (if s.deviceType = "Light" ∨ s.deviceType = "Humidifier" ∨
            s.deviceType = "Exhaust" ∨ s.deviceType = "Ventilation" then
          [HassCall.svcNum "number" "set_value" e.entity_id 0]
        else [])))
    if entity_ids = [] then (s, calls)
    else ({ s with isRunning := false }, calls)
  else
    match s.switches with
    | [] => (s, [])
    | e :: _ =>
        let eid := e.entity_id
        if s.deviceType = "Climate" then
          ({ s with isRunning := false },
            [HassCall.svcOpt "climate" "set_hvac_mode" eid "off"])
        else if s.deviceType = "Humidifier" then
          ({ s with isRunning := false },
            [HassCall.svc "switch" "turn_off" eid])
        else if s.deviceType = "Light" then
          if s.isDimmable then
            ({ s with isRunning := false, voltage := some 0 },
              [HassCall.svc "light" "turn_off" eid])
          else
            ({ s with isRunning := false },
              [HassCall.svc "switch" "turn_off" eid])
        else if s.deviceType = "Exhaust" then
          if s.isDimmable then (s, [])
          else
            ({ s with isRunning := false },
              [HassCall.svc "switch" "turn_off" eid])
        else if s.deviceType = "Intake" then
          if s.isDimmable then (s, [])
          else
            ({ s with isRunning := false },
              [HassCall.svc "switch" "turn_off" eid])
        else if s.deviceType = "Ventilation" then
          ({ s with isRunning := false },
            s.switches.map (fun e2 =>
              if s.isSpecialDevice then
                HassCall.svc "light" "turn_off" e2.entity_id
              else if s.isDimmable then
                HassCall.svc "fan" "turn_off" e2.entity_id
              else HassCall.svc "switch" "turn_off" e2.entity_id))
        else if s.deviceType = "CO2" then
          if s.isDimmable then (s, [])
          else
            ({ s with isRunning := false },
              [HassCall.svc "switch" "turn_off" eid])
        else
          ({ s with isRunning := false },
            [HassCall.svc "switch" "turn_off" eid])

/-- The device-shutdown loop of `UltraInstinctManager.emergency_stop`
(UltraInstinctManager.py lines 756-768): every managed device gets a
best-effort `turn_off` call. -/
def emergencyStopDevices (devs : List DevState) :
    List (DevState × List HassCall) :=
  devs.map turn_off

/-- Method-level effects issued by `Device.WorkMode`: calls of
`self.turn_on` (with its keyword argument), `self.turn_off`, and event
emissions. -/
inductive DevAction
  | turnOnBrightness (v : Option ℚ)
  | turnOnPercentage (v : ℤ)
  | turnOnPlain
  | turnOffCall
  | emitEvent (name : String) (payload : Bool)
  deriving DecidableEq

/-- The light types with dedicated scheduling that `Device.WorkMode`
ignores. -/
def specialLightTypes : List String :=
  ["LightFarRed", "LightUV", "LightBlue", "LightRed", "LightSpectrum"]

/-- `Device.WorkMode` (Device.py lines 1348-1422) as a step function:
given the workmode signal it returns the new device state and the
method-level actions it issues, or `none` where the Python code would
raise (`int(float(None))` on an unset duty bound).  Entering drives
dimmable actuators to their minimum bound (Light: `minVoltage`, or
`initVoltage` when bounds are unset) and turns non-dimmable actuators
off (except kinds Light/Pump/Sensor); exiting sets the control value to
the maximum bound and issues `turn_on` only when `isRunning` is set. -/
def WorkModeStep (s : DevState) (workmode : Bool) :
    Option (DevState × List DevAction) :=
  if s.islightON = some false then
    if s.deviceType ∈ specialLightTypes then some (s, [])
    else some ({ s with pendingWorkMode := some workmode }, [])
  else
    let s0 := { s with inWorkMode := workmode }
    if workmode then
      if s0.isDimmable then
        if s0.deviceType = "Light" then
          if s0.sunPhaseActive = some true then
            some (s0, [DevAction.emitEvent "pauseSunPhase" false])
          else
            let v : ℚ := match s0.minVoltage, s0.maxVoltage with
              | some mn, some _ => mn
              | _, _ => s0.initVoltage
            some ({ s0 with voltage := some v },
              [DevAction.turnOnBrightness (some v)])
        else if s0.deviceType ∈ specialLightTypes then some (s0, [])
        else
          match s0.minDuty with
          | none => none
          | some mn =>
              some ({ s0 with dutyCycle := some mn },
                (if s0.isSpecialDevice then
                  [DevAction.turnOnBrightness (some ((ratTrunc mn : ℤ) : ℚ))]
                else []) ++ [DevAction.turnOnPercentage (ratTrunc mn)])
      else
        if s0.deviceType = "Light" then some (s0, [])
        else if s0.deviceType = "Pump" then some (s0, [])
        else if s0.deviceType = "Sensor" then some (s0, [])
        else some (s0, [DevAction.turnOffCall])
    else
      if s0.isDimmable then
        if s0.deviceType = "Light" then
          if s0.sunPhaseActive = some true then
            some (s0, [DevAction.emitEvent "resumeSunPhase" false])
          else
            let s1 := { s0 with voltage := s0.maxVoltage }
            if s1.isRunning then
              some (s1, [DevAction.turnOnBrightness s0.maxVoltage])
            else some (s1, [])
        else
          let s1 := { s0 with dutyCycle := s0.maxDuty }
          if s1.isRunning then
            match s0.maxDuty with
            | none => none
            | some mx =>
                some (s1, (if s1.isSpecialDevice then
                    [DevAction.turnOnBrightness (some ((ratTrunc mx : ℤ) : ℚ))]
                  else []) ++ [DevAction.turnOnPercentage (ratTrunc mx)])
          else some (s1, [])
      else
        if s0.deviceType = "Light" then some (s0, [])
        else if s0.deviceType = "Pump" then some (s0, [])
        else if s0.deviceType = "Sensor" then some (s0, [])
        else if s0.isRunning then some (s0, [DevAction.turnOnPlain])
        else some (s0, [])

/-- One entry of `UltraInstinctManager.sensor_history` (UltraInstinctManager.py
lines 209-223): a wall-clock timestamp (seconds) together with the
multi-layer readings the gradient computation consumes; a `none` field
models a missing (`None`) reading. -/
structure SensorEntry where
  timestamp : ℚ
  outside_temp : Option ℚ := none
  outside_hum : Option ℚ := none
  ambient_temp : Option ℚ := none
  ambient_hum : Option ℚ := none
  tent_temp : Option ℚ := none
  tent_hum : Option ℚ := none
  deriving DecidableEq, Inhabited

/-- The gradient set returned by `UltraInstinctManager._calculate_gradients`. -/
structure Gradients where
  outside_to_ambient_temp : ℚ
  outside_to_ambient_hum : ℚ
  ambient_to_tent_temp : ℚ
  ambient_to_tent_hum : ℚ
  temp_trend : ℚ
  hum_trend : ℚ
  deriving DecidableEq

/-- The all-zero gradient set returned when fewer than 2 samples are
buffered. -/
def zeroGradients : Gradients :=
  { outside_to_ambient_temp := 0, outside_to_ambient_hum := 0
    ambient_to_tent_temp := 0, ambient_to_tent_hum := 0
    temp_trend := 0, hum_trend := 0 }

/-- The per-sample-pair changes collected by the intra-tent trend loop of
`_calculate_gradients` (UltraInstinctManager.py lines 284-295):
`for i in range(len - 1, max(0, len - 4), -1)` with the extra `i > 0`
guard, keeping `(curr - prev) / dt` for pairs with positive `dt` and
truthy (`None`- and `0`-excluding) readings on both sides. -/
def trendChanges (history : List SensorEntry) (f : SensorEntry → Option ℚ) :
    List ℚ :=
  (((List.range history.length).filter
      (fun i => decide (history.length - 4 < i) && decide (0 < i))).reverse
    ).filterMap (fun i =>
      let curr := history.getD i default
      let prev := history.getD (i - 1) default
      let dt := (curr.timestamp - prev.timestamp) / 3600
      if 0 < dt ∧ truthyNum (f curr) ∧ truthyNum (f prev) then
        some (((f curr).getD 0 - (f prev).getD 0) / dt)
      else none)

/-- The averaged intra-tent trend of `_calculate_gradients`
(UltraInstinctManager.py lines 282-301): zero below 3 samples or when no
valid pair was collected, else the mean of the collected changes. -/
def trendOf (history : List SensorEntry) (f : SensorEntry → Option ℚ) : ℚ :=
  if 3 ≤ history.length then
    let cs := trendChanges history f
    if cs = [] then 0 else cs.sum / (cs.length : ℚ)
  else 0

/-- The divisor of `_calculate_gradients` (UltraInstinctManager.py lines
250-252): elapsed hours between the oldest and the newest buffered
sample, with `0.5` substituted when it is zero. -/
def effectiveTimeDelta (history : List SensorEntry) : ℚ :=
  let td0 := (history.getLastI.timestamp - history.headI.timestamp) / 3600
  if td0 = 0 then 1 / 2 else td0

/-- `UltraInstinctManager._calculate_gradients` (UltraInstinctManager.py
lines 225-310).  With fewer than 2 buffered samples the result is all
zeros.  Otherwise the elapsed time between the oldest and the newest
sample (in hours, with 0.5 substituted when it is zero) divides the
*inter-layer difference at the newest sample* — e.g.
`latest["outside_temp"] - latest["ambient_temp"]` — for each of the four
layer gradients; a gradient whose layer values are missing, or a
non-positive divisor, yields zero. -/
def calculate_gradients (history : List SensorEntry) : Gradients :=
  if history.length < 2 then zeroGradients
  else
    let latest := history.getLastI
    let time_delta_hours := effectiveTimeDelta history
    let layerGrad := fun (a b : Option ℚ) =>
      match a, b with
      | some x, some y =>
          if 0 < time_delta_hours then (x - y) / time_delta_hours else 0
      | _, _ => 0
    { outside_to_ambient_temp := layerGrad latest.outside_temp latest.ambient_temp
      outside_to_ambient_hum := layerGrad latest.outside_hum latest.ambient_hum
      ambient_to_tent_temp := layerGrad latest.ambient_temp latest.tent_temp
      ambient_to_tent_hum := layerGrad latest.ambient_hum latest.tent_hum
      temp_trend := trendOf history (fun e => e.tent_temp)
      hum_trend := trendOf history (fun e => e.tent_hum) }

/-- Plant-stage data as read from the datastore by
`UltraInstinctManager._calculate_targets`; each field may be missing from
the stage dictionary (`stage_data.get(key, default)`). -/
structure StageData where
  minTemp : Option ℚ := none
  maxTemp : Option ℚ := none
  optimalHumidity : Option ℚ := none
  deriving DecidableEq

/-- The output of `UltraInstinctManager._calculate_predictive_factors`
(UltraInstinctManager.py lines 377-381), taken as an input by the target
calculation. -/
structure PredictiveFactors where
  temp_predicted_change : ℚ
  hum_predicted_change : ℚ
  exhaust_pre_adjust : ℚ
  deriving DecidableEq

/-- Python's banker's rounding (`round(x)`): nearest integer, ties to the
even one. -/
def roundHalfEven (q : ℚ) : ℤ :=
  let f := ⌊q⌋
  let r := q - (f : ℚ)
  if r < 1 / 2 then f
  else if 1 / 2 < r then f + 1
  else if Even f then f else f + 1

/-- Python's `round(x, 1)`: banker's rounding to one decimal place. -/
def round1 (q : ℚ) : ℚ :=
  ((roundHalfEven (q * 10) : ℤ) : ℚ) / 10

/-- The `stage_exhaust` base-speed table of
`UltraInstinctManager._calculate_base_exhaust_speed` with its default of
55. -/
def stageExhaustBase (plant_stage : String) : ℚ :=
  if plant_stage = "Germination" then 15
  else if plant_stage = "Clones" then 20
  else if plant_stage = "EarlyVeg" then 30
  else if plant_stage = "MidVeg" then 45
  else if plant_stage = "LateVeg" then 55
  else if plant_stage = "EarlyFlower" then 60
  else if plant_stage = "MidFlower" then 70
  else if plant_stage = "LateFlower" then 75
  else 55

/-- `UltraInstinctManager._calculate_base_exhaust_speed`
(UltraInstinctManager.py lines 503-545): stage base speed, VPD-aware
adjustment, ambient-temperature nudge, clamped to `[10, 100]`. -/
def calculate_base_exhaust_speed (plant_stage : String)
    (ambient_temp : Option ℚ) (current_vpd target_vpd max_vpd : ℚ) : ℚ :=
  let base := stageExhaustBase plant_stage
  let base := if max_vpd + 1 / 5 < current_vpd then base + 15
    else if current_vpd < target_vpd - 3 / 10 then base - 10
    else if target_vpd + 1 / 10 < current_vpd then base + 5
    else base
  let base := match ambient_temp with
    | some t => if 28 < t then base + 5 else if t < 15 then base - 5 else base
    | none => base
  max 10 (min 100 base)

/-- The `stage_light` table of
`UltraInstinctManager._calculate_base_light_intensity` with its default
of 80. -/
def calculate_base_light_intensity (plant_stage : String) : ℚ :=
  if plant_stage = "Germination" then 25
  else if plant_stage = "Clones" then 35
  else if plant_stage = "EarlyVeg" then 50
  else if plant_stage = "MidVeg" then 65
  else if plant_stage = "LateVeg" then 80
  else if plant_stage = "EarlyFlower" then 85
  else if plant_stage = "MidFlower" then 95
  else if plant_stage = "LateFlower" then 95
  else 80

/-- The predictively adjusted temperature target of
`UltraInstinctManager._calculate_targets` (UltraInstinctManager.py lines
422-437): stage midpoint minus 0.7 of the predicted temperature delta,
re-clamped into `[temp_min, temp_max]`. -/
def adjusted_target_temp (temp_min temp_max predicted_temp_change : ℚ) : ℚ :=
  max temp_min (min temp_max
    ((temp_min + temp_max) / 2 - predicted_temp_change * (7 / 10)))

/-- The predictively adjusted humidity target of
`UltraInstinctManager._calculate_targets` (lines 434-438): stage optimum
minus 0.6 of the predicted humidity delta, re-clamped into the fixed
global range `[40, 85]`. -/
def adjusted_target_hum (hum_optimal predicted_hum_change : ℚ) : ℚ :=
  max 40 (min 85 (hum_optimal - predicted_hum_change * (6 / 10)))

/-- The target set stored in `self.targets` by `_calculate_targets`. -/
structure Targets where
  temperature_target : ℚ
  humidity_target : ℚ
  light_intensity : ℚ
  exhaust_speed : ℚ
  intake_speed : ℚ
  deriving DecidableEq

/-- `UltraInstinctManager._calculate_targets` (UltraInstinctManager.py
lines 383-476), with the plant-stage dictionary, the VPD settings and the
predictive factors (produced by `_calculate_predictive_factors`) as
inputs.  Missing stage data falls back to `(20, 30, 60)`; every stored
target passes through Python's `round(x, 1)`. -/
def calculate_targets (stage_data : Option StageData) (plant_stage : String)
    (ambient_temp : Option ℚ) (current_vpd target_vpd max_vpd : ℚ)
    (predictive : PredictiveFactors) : Targets :=
  let temp_min := match stage_data with
    | some sd => sd.minTemp.getD 20
    | none => 20
  let temp_max := match stage_data with
    | some sd => sd.maxTemp.getD 30
    | none => 30
  let hum_optimal := match stage_data with
    | some sd => sd.optimalHumidity.getD 60
    | none => 60
  let predicted_temp_change := predictive.temp_predicted_change
  let predicted_hum_change := predictive.hum_predicted_change
  let adjusted_temp := adjusted_target_temp temp_min temp_max
    predicted_temp_change
  let adjusted_hum := adjusted_target_hum hum_optimal predicted_hum_change
  let base_exhaust := calculate_base_exhaust_speed plant_stage ambient_temp
    current_vpd target_vpd max_vpd
  let target_exhaust := max 10 (min 100
    (base_exhaust + predictive.exhaust_pre_adjust))
  let target_intake := target_exhaust * (85 / 100)
  let base_light := calculate_base_light_intensity plant_stage
  let target_light := if 1 < predicted_temp_change then
      base_light - min 20 (predicted_temp_change * 8)
    else base_light
  let target_light := max 0 (min 100 target_light)
  { temperature_target := round1 adjusted_temp
    humidity_target := round1 adjusted_hum
    light_intensity := round1 target_light
    exhaust_speed := round1 target_exhaust
    intake_speed := round1 target_intake }

/-- Commands the humidity section of
`UltraInstinctManager._execute_direct_control` can issue. -/
inductive HumCmd
  | humidifierOn
  | humidifierOff
  | dehumidifierOn
  | dehumidifierOff
  deriving DecidableEq

/-- The humidifier/dehumidifier hysteresis block of
`UltraInstinctManager._execute_direct_control` (UltraInstinctManager.py
lines 611-639): `hum_diff = current_hum - target_hum`; below `-5` the
humidifier is turned on and the dehumidifier off, above `+5` the
dehumidifier on and the humidifier off, otherwise nothing is issued.
The boolean flags state which of the two devices are managed
(`"humidifier" in self.devices`). -/
def executeHumidityControl (current_hum target_hum : ℚ)
    (hasHumidifier hasDehumidifier : Bool) : List HumCmd :=
  let hum_diff := current_hum - target_hum
  if hum_diff < -5 then
    (if hasHumidifier then [HumCmd.humidifierOn] else []) ++
      (if hasDehumidifier then [HumCmd.dehumidifierOff] else [])
  else if 5 < hum_diff then
    (if hasDehumidifier then [HumCmd.dehumidifierOn] else []) ++
      (if hasHumidifier then [HumCmd.humidifierOff] else [])
  else []

/-- C1, counterexample: with bounds `(0, 100)` (so `min ≤ max`) and the
in-range raw value `101/2 = 50.5`, `clamp_duty_cycle` does not return the
value itself — Python's `int(...)` truncates it to `50` — so the claimed
idempotence `clamp(v) == v` on `[min, max]` fails. -/
theorem c1_clamp_duty_counterexample :
    (0 : ℚ) ≤ 101 / 2 ∧ (101 : ℚ) / 2 ≤ 100 ∧ (0 : ℚ) ≤ 100 ∧
    clamp_duty_cycle (some 0) (some 100) (some (101 / 2)) ≠ 101 / 2 := by
  refine ⟨by norm_num, by norm_num, by norm_num, ?_⟩
  norm_num [clamp_duty_cycle, ratTrunc]

/-- C1 (amended): for bounds `min ≤ max`, `clamp_voltage` returns
`max(min, min(max, v))`, which lies in `[min, max]` and equals `v`
whenever `v` is already in range; `clamp_duty_cycle` truncates the
clamped value to an integer, so for *integer* bounds its result still
lies in `[min, max]` and it returns `v` itself for integer in-range
values; a `None` duty value yields the default `50`. -/
theorem c1_clamp_bounds_amended (mn mx v : ℚ) (a b : ℤ)
    (hmn : mn ≤ mx) (hab : (a : ℚ) ≤ (b : ℚ)) :
    clamp_voltage (some mn) (some mx) (some v) = some (max mn (min mx v)) ∧
    (mn ≤ max mn (min mx v) ∧ max mn (min mx v) ≤ mx) ∧
    (mn ≤ v → v ≤ mx → clamp_voltage (some mn) (some mx) (some v) = some v) ∧
    ((a : ℚ) ≤ clamp_duty_cycle (some (a : ℚ)) (some (b : ℚ)) (some v) ∧
      clamp_duty_cycle (some (a : ℚ)) (some (b : ℚ)) (some v) ≤ (b : ℚ)) ∧
    (∀ k : ℤ, (a : ℚ) ≤ (k : ℚ) → (k : ℚ) ≤ (b : ℚ) →
      clamp_duty_cycle (some (a : ℚ)) (some (b : ℚ)) (some (k : ℚ)) =
        (k : ℚ)) ∧
    clamp_duty_cycle (some (a : ℚ)) (some (b : ℚ)) none = 50 := by
  refine ⟨rfl, ⟨le_max_left _ _, max_le hmn (min_le_left _ _)⟩, ?_, ?_, ?_, rfl⟩
  · intro h1 h2
    simp [clamp_voltage, pyOrZero, min_eq_right h2, max_eq_right h1]
  · have hc1 : (a : ℚ) ≤ max (a : ℚ) (min (b : ℚ) v) := le_max_left _ _
    have hc2 : max (a : ℚ) (min (b : ℚ) v) ≤ (b : ℚ) :=
      max_le hab (min_le_left _ _)
    set c : ℚ := max (a : ℚ) (min (b : ℚ) v) with hc
    have heq : clamp_duty_cycle (some (a : ℚ)) (some (b : ℚ)) (some v) =
        ((ratTrunc c : ℤ) : ℚ) := rfl
    rw [heq]
    unfold ratTrunc
    by_cases h0 : 0 ≤ c
    · rw [if_pos h0]
      constructor
      · exact_mod_cast Int.le_floor.mpr hc1
      · calc ((⌊c⌋ : ℤ) : ℚ) ≤ c := Int.floor_le c
          _ ≤ (b : ℚ) := hc2
    · rw [if_neg h0]
      constructor
      · calc (a : ℚ) ≤ c := hc1
          _ ≤ ((⌈c⌉ : ℤ) : ℚ) := Int.le_ceil c
      · exact_mod_cast Int.ceil_le.mpr hc2
  · intro k hk1 hk2
    have h1 : min (b : ℚ) (k : ℚ) = (k : ℚ) := min_eq_right hk2
    have h2 : max (a : ℚ) (k : ℚ) = (k : ℚ) := max_eq_right hk1
    have heq : clamp_duty_cycle (some (a : ℚ)) (some (b : ℚ))
        (some (k : ℚ)) =
        ((ratTrunc (max (a : ℚ) (min (b : ℚ) (k : ℚ))) : ℤ) : ℚ) := rfl
    rw [heq, h1, h2]
    unfold ratTrunc
    by_cases h0 : (0 : ℚ) ≤ (k : ℚ)
    · rw [if_pos h0, Int.floor_intCast]
    · rw [if_neg h0, Int.ceil_intCast]

/-- C1, witness: the amended clamp theorem applied at bounds `(20, 80)`
with value `50`, and duty bounds `(10, 95)` with the integer value `50`
and the `None` fallback. -/
theorem c1_clamp_bounds_amended_witness :
    clamp_voltage (some 20) (some 80) (some 50) = some 50 ∧
    clamp_duty_cycle (some ((10 : ℤ) : ℚ)) (some ((95 : ℤ) : ℚ))
      (some ((50 : ℤ) : ℚ)) = ((50 : ℤ) : ℚ) ∧
    clamp_duty_cycle (some ((10 : ℤ) : ℚ)) (some ((95 : ℤ) : ℚ)) none = 50 := by
  have h := c1_clamp_bounds_amended 20 80 50 10 95 (by norm_num) (by norm_num)
  exact ⟨h.2.2.1 (by norm_num) (by norm_num),
    h.2.2.2.2.1 50 (by norm_num) (by norm_num), h.2.2.2.2.2⟩

theorem registerCapability_invariant (cap : CapEntry) (name : String)
    (h1 : cap.count = cap.devEntities.length) (h2 : cap.devEntities.Nodup) :
    (registerCapability cap name).count =
      (registerCapability cap name).devEntities.length ∧
    (registerCapability cap name).devEntities.Nodup := by
  unfold registerCapability
  by_cases hm : name ∈ cap.devEntities
  · simp [hm, h1, h2]
  · simp [hm, h1, List.nodup_append, h2]

theorem foldl_registerCapability_invariant (names : List String)
    (cap : CapEntry)
    (h1 : cap.count = cap.devEntities.length) (h2 : cap.devEntities.Nodup) :
    (names.foldl registerCapability cap).count =
      (names.foldl registerCapability cap).devEntities.length ∧
    (names.foldl registerCapability cap).devEntities.Nodup := by
  induction names generalizing cap with
  | nil => exact ⟨h1, h2⟩
  | cons a rest ih =>
      have h := registerCapability_invariant cap a h1 h2
      exact ih (registerCapability cap a) h.1 h.2

/-- C6: registering an already-registered device name leaves the
capability entry unchanged; after any sequence of registrations starting
from the initial entry, `count` equals the number of registered names and
no name appears twice; in particular registering one device twice leaves
`count = 1` with exactly that one entry. -/
theorem c6_capability_registration (names : List String) (cap : CapEntry)
    (name : String) :
    (name ∈ cap.devEntities → registerCapability cap name = cap) ∧
    (names.foldl registerCapability initialCapEntry).count =
      (names.foldl registerCapability initialCapEntry).devEntities.length ∧
    (names.foldl registerCapability initialCapEntry).devEntities.Nodup ∧
    registerCapability (registerCapability initialCapEntry name) name =
      { state := true, count := 1, devEntities := [name] } := by
  refine ⟨?_, ?_, ?_, ?_⟩
  · intro hm
    unfold registerCapability
    simp [hm]
  · exact (foldl_registerCapability_invariant names initialCapEntry rfl
      List.nodup_nil).1
  · exact (foldl_registerCapability_invariant names initialCapEntry rfl
      List.nodup_nil).2
  · simp [registerCapability, initialCapEntry]

/-- C6, witness: the registration theorem applied to the capability
`canExhaust` scenario — one device name registered twice from the initial
entry. -/
theorem c6_capability_registration_witness :
    registerCapability
        (registerCapability initialCapEntry "tent_exhaust") "tent_exhaust" =
      { state := true, count := 1, devEntities := ["tent_exhaust"] } ∧
    registerCapability
        { state := true, count := 1, devEntities := ["tent_exhaust"] }
        "tent_exhaust" =
      { state := true, count := 1, devEntities := ["tent_exhaust"] } := by
  have h := c6_capability_registration ["tent_exhaust", "tent_exhaust"]
    { state := true, count := 1, devEntities := ["tent_exhaust"] }
    "tent_exhaust"
  exact ⟨h.2.2.2, h.1 (by decide)⟩

/-- C7: for an online device, a `turn_on` call arriving at least 3 seconds
after the previously accepted one proceeds to command dispatch, while a
second call less than 3 seconds later is rejected without updating the
timestamp — so of the two calls exactly one reaches the hardware. -/
theorem c7_turn_on_rate_limit (last t1 t2 : ℚ)
    (h1 : 3 ≤ t1 - last) (h2 : t2 - t1 < 3) :
    (turn_on_gate true last t1).1 = true ∧
    (turn_on_gate true (turn_on_gate true last t1).2 t2).1 = false ∧
    (turn_on_gate true (turn_on_gate true last t1).2 t2).2 = t1 ∧
    ((if (turn_on_gate true last t1).1 then 1 else 0) +
      (if (turn_on_gate true (turn_on_gate true last t1).2 t2).1 then 1
        else 0) : ℕ) = 1 := by
  have e1 : turn_on_gate true last t1 = (true, t1) := by
    unfold turn_on_gate
    simp [not_lt.mpr h1]
  have e2 : turn_on_gate true t1 t2 = (false, t1) := by
    unfold turn_on_gate
    simp [h2]
  rw [e1]
  rw [e2]
  simp

/-- C7, witness: the rate-limit theorem at a previous accepted call time
100 and a second call 1 second later. -/
theorem c7_turn_on_rate_limit_witness :
    (turn_on_gate true 0 100).1 = true ∧
    (turn_on_gate true (turn_on_gate true 0 100).2 101).1 = false := by
  have h := c7_turn_on_rate_limit 0 100 101 (by norm_num) (by norm_num)
  exact ⟨h.1, h.2.1⟩

/-- C8: with both humidity devices managed, the direct-actuation cycle
turns the humidifier on and the dehumidifier off exactly when current
humidity is more than 5 below target, the dehumidifier on and the
humidifier off exactly when more than 5 above target, and issues no
humidifier/dehumidifier command inside the ±5 deadband. -/
theorem c8_humidity_hysteresis (current_hum target_hum : ℚ) :
    (current_hum - target_hum < -5 →
      executeHumidityControl current_hum target_hum true true =
        [HumCmd.humidifierOn, HumCmd.dehumidifierOff]) ∧
    (5 < current_hum - target_hum →
      executeHumidityControl current_hum target_hum true true =
        [HumCmd.dehumidifierOn, HumCmd.humidifierOff]) ∧
    (-5 ≤ current_hum - target_hum → current_hum - target_hum ≤ 5 →
      executeHumidityControl current_hum target_hum true true = []) := by
  unfold executeHumidityControl
  refine ⟨?_, ?_, ?_⟩
  · intro h
    simp [h]
  · intro h
    have h1 : ¬ current_hum - target_hum < -5 := by linarith
    simp [h, h1]
  · intro h1 h2
    have h3 : ¬ current_hum - target_hum < -5 := by linarith
    have h4 : ¬ 5 < current_hum - target_hum := by linarith
    simp [h3, h4]

/-- C8, witness: the hysteresis theorem at current humidity 50 against
target 60 (humidifier on, dehumidifier off) and at 58 against 60 (inside
the deadband, nothing issued). -/
theorem c8_humidity_hysteresis_witness :
    executeHumidityControl 50 60 true true =
      [HumCmd.humidifierOn, HumCmd.dehumidifierOff] ∧
    executeHumidityControl 58 60 true true = [] :=
  ⟨(c8_humidity_hysteresis 50 60).1 (by norm_num),
    (c8_humidity_hysteresis 58 60).2.2 (by norm_num) (by norm_num)⟩

/-- C4: for a plant stage with `temp_min ≤ temp_max`, the predictively
adjusted temperature target (baseline midpoint minus 0.7 of the predicted
delta, re-clamped) lies in `[temp_min, temp_max]` for every predicted
delta, and the adjusted humidity target lies in the fixed global range
`[40, 85]`; the stored targets are exactly these values rounded to one
decimal. -/
theorem c4_predictive_target_bounds (temp_min temp_max hum_optimal
    predicted_temp_change predicted_hum_change exhaust_pre : ℚ)
    (plant_stage : String) (ambient_temp : Option ℚ)
    (current_vpd target_vpd max_vpd : ℚ)
    (h : temp_min ≤ temp_max) :
    temp_min ≤ adjusted_target_temp temp_min temp_max predicted_temp_change ∧
    adjusted_target_temp temp_min temp_max predicted_temp_change ≤ temp_max ∧
    40 ≤ adjusted_target_hum hum_optimal predicted_hum_change ∧
    adjusted_target_hum hum_optimal predicted_hum_change ≤ 85 ∧
    (calculate_targets
        (some { minTemp := some temp_min, maxTemp := some temp_max,
                optimalHumidity := some hum_optimal })
        plant_stage ambient_temp current_vpd target_vpd max_vpd
        { temp_predicted_change := predicted_temp_change,
          hum_predicted_change := predicted_hum_change,
          exhaust_pre_adjust := exhaust_pre }).temperature_target =
      round1 (adjusted_target_temp temp_min temp_max
        predicted_temp_change) ∧
    (calculate_targets
        (some { minTemp := some temp_min, maxTemp := some temp_max,
                optimalHumidity := some hum_optimal })
        plant_stage ambient_temp current_vpd target_vpd max_vpd
        { temp_predicted_change := predicted_temp_change,
          hum_predicted_change := predicted_hum_change,
          exhaust_pre_adjust := exhaust_pre }).humidity_target =
      round1 (adjusted_target_hum hum_optimal predicted_hum_change) := by
  refine ⟨le_max_left _ _, max_le h (min_le_left _ _), le_max_left _ _,
    max_le (by norm_num) (min_le_left _ _), rfl, rfl⟩

/-- C4, witness: the target-bounds theorem for the stage range `[20, 30]`
with optimal humidity 60 and a large predicted warming of 50 units: the
adjusted targets are pinned to the lower bounds `20` and `40`. -/
theorem c4_predictive_target_bounds_witness :
    adjusted_target_temp 20 30 50 = 20 ∧
    (20 : ℚ) ≤ adjusted_target_temp 20 30 50 ∧
    adjusted_target_temp 20 30 50 ≤ 30 ∧
    (40 : ℚ) ≤ adjusted_target_hum 60 50 ∧
    adjusted_target_hum 60 50 ≤ 85 := by
  have h := c4_predictive_target_bounds 20 30 60 50 50 0 "LateVeg" none 1 1
    (6 / 5) (by norm_num)
  refine ⟨?_, h.1, h.2.1, h.2.2.1, h.2.2.2.1⟩
  norm_num [adjusted_target_temp]

/-- A history sample at time 0 with outside 10 °C warmer than ambient. -/
def c2entry0 : SensorEntry :=
  { timestamp := 0, outside_temp := some 10, outside_hum := some 30,
    ambient_temp := some 0, ambient_hum := some 30,
    tent_temp := some 5, tent_hum := some 30 }

/-- The identical readings one hour later. -/
def c2entry1 : SensorEntry :=
  { timestamp := 3600, outside_temp := some 10, outside_hum := some 30,
    ambient_temp := some 0, ambient_hum := some 30,
    tent_temp := some 5, tent_hum := some 30 }

/-- C2, counterexample: a 2-sample buffer in which every buffered quantity
is constant over time (so the change between the oldest and the newest
sample of every quantity is 0, and any oldest-vs-newest rate would be 0),
with exactly one hour elapsed; the code still returns a nonzero
outside→ambient temperature gradient of 10, because it divides the
*current difference between the layers* — not any change over time — by
the elapsed hours. -/
theorem c2_gradient_counterexample :
    c2entry1.outside_temp = c2entry0.outside_temp ∧
    c2entry1.outside_hum = c2entry0.outside_hum ∧
    c2entry1.ambient_temp = c2entry0.ambient_temp ∧
    c2entry1.ambient_hum = c2entry0.ambient_hum ∧
    c2entry1.tent_temp = c2entry0.tent_temp ∧
    c2entry1.tent_hum = c2entry0.tent_hum ∧
    effectiveTimeDelta [c2entry0, c2entry1] = 1 ∧
    (calculate_gradients [c2entry0, c2entry1]).outside_to_ambient_temp =
      10 := by
  refine ⟨rfl, rfl, rfl, rfl, rfl, rfl, ?_, ?_⟩
  · norm_num [effectiveTimeDelta, c2entry0, c2entry1, List.getLastI,
      List.headI]
  · norm_num [calculate_gradients, effectiveTimeDelta, c2entry0, c2entry1,
      List.getLastI, List.headI]

/-- C2 (amended): with fewer than 2 buffered samples the gradient set is
all zeros; with at least 2 samples, each inter-layer gradient is the
difference between the two layers *at the newest sample* divided by the
elapsed wall-clock hours between the oldest and the newest sample (0.5
hours substituted when the elapsed time is zero), provided that divisor
is positive and both layer readings are present. -/
theorem c2_gradients_amended (history : List SensorEntry)
    (ot oh at_ ah tt th : ℚ) :
    (history.length < 2 → calculate_gradients history = zeroGradients) ∧
    (2 ≤ history.length → 0 < effectiveTimeDelta history →
      history.getLastI.outside_temp = some ot →
      history.getLastI.outside_hum = some oh →
      history.getLastI.ambient_temp = some at_ →
      history.getLastI.ambient_hum = some ah →
      history.getLastI.tent_temp = some tt →
      history.getLastI.tent_hum = some th →
      (calculate_gradients history).outside_to_ambient_temp =
          (ot - at_) / effectiveTimeDelta history ∧
        (calculate_gradients history).outside_to_ambient_hum =
          (oh - ah) / effectiveTimeDelta history ∧
        (calculate_gradients history).ambient_to_tent_temp =
          (at_ - tt) / effectiveTimeDelta history ∧
        (calculate_gradients history).ambient_to_tent_hum =
          (ah - th) / effectiveTimeDelta history) := by
  constructor
  · intro h
    unfold calculate_gradients
    rw [if_pos h]
  · intro hlen htd h1 h2 h3 h4 h5 h6
    unfold calculate_gradients
    rw [if_neg (not_lt.mpr hlen)]
    simp only [h1, h2, h3, h4, h5, h6, if_pos htd]
    exact ⟨trivial, trivial, trivial, trivial⟩

/-- C2, witness: the amended gradient theorem applied to the concrete
two-sample history `[c2entry0, c2entry1]`. -/
theorem c2_gradients_amended_witness :
    (calculate_gradients [c2entry0, c2entry1]).outside_to_ambient_temp =
      (10 - 0) / effectiveTimeDelta [c2entry0, c2entry1] ∧
    (calculate_gradients [c2entry0, c2entry1]).ambient_to_tent_temp =
      (0 - 5) / effectiveTimeDelta [c2entry0, c2entry1] := by
  have h := (c2_gradients_amended [c2entry0, c2entry1] 10 30 0 30 5 30).2
    (by norm_num) (by norm_num [effectiveTimeDelta, c2entry0, c2entry1,
      List.getLastI, List.headI]) rfl rfl rfl rfl rfl rfl
  exact ⟨h.1, h.2.2.1⟩

/-- C3: on the WorkMode→Normal transition (signal `false`), with the
light-off gate not engaged: a dimmable non-Light actuator always has its
control value set to its maximum duty bound, but the `turn_on` command is
issued only when the actuator was already marked running — an idle
actuator is never turned on; a dimmable Light (without active sun phase)
likewise restores `voltage` to `maxVoltage` and issues `turn_on` only
when running; a non-dimmable actuator (kind outside Light/Pump/Sensor)
issues `turn_on`, restoring its prior on state, only when running. -/
theorem c3_workmode_exit_no_autostart (s : DevState) (mx : ℚ)
    (hgate : s.islightON ≠ some false) :
    (s.isDimmable = true → s.deviceType ≠ "Light" → s.maxDuty = some mx →
      ((s.isRunning = false →
        WorkModeStep s false =
          some ({ s with inWorkMode := false, dutyCycle := some mx }, [])) ∧
       (s.isRunning = true →
        WorkModeStep s false =
          some ({ s with inWorkMode := false, dutyCycle := some mx },
            (if s.isSpecialDevice then
              [DevAction.turnOnBrightness (some ((ratTrunc mx : ℤ) : ℚ))]
            else []) ++ [DevAction.turnOnPercentage (ratTrunc mx)])))) ∧
    (s.isDimmable = true → s.deviceType = "Light" →
      s.sunPhaseActive ≠ some true →
      ((s.isRunning = false →
        WorkModeStep s false =
          some ({ s with inWorkMode := false, voltage := s.maxVoltage },
            [])) ∧
       (s.isRunning = true →
        WorkModeStep s false =
          some ({ s with inWorkMode := false, voltage := s.maxVoltage },
            [DevAction.turnOnBrightness s.maxVoltage])))) ∧
    (s.isDimmable = false → s.deviceType ≠ "Light" →
      s.deviceType ≠ "Pump" → s.deviceType ≠ "Sensor" →
      ((s.isRunning = false →
        WorkModeStep s false = some ({ s with inWorkMode := false }, [])) ∧
       (s.isRunning = true →
        WorkModeStep s false =
          some ({ s with inWorkMode := false },
            [DevAction.turnOnPlain])))) := by
  refine ⟨?_, ?_, ?_⟩
  · intro hd hL hmx
    constructor
    · intro hr
      simp [WorkModeStep, hgate, hd, hL, hmx, hr]
    · intro hr
      simp [WorkModeStep, hgate, hd, hL, hmx, hr]
  · intro hd hL hsun
    constructor
    · intro hr
      simp [WorkModeStep, hgate, hd, hL, hsun, hr]
    · intro hr
      simp [WorkModeStep, hgate, hd, hL, hsun, hr]
  · intro hd hL hP hS
    constructor
    · intro hr
      simp [WorkModeStep, hgate, hd, hL, hP, hS, hr]
    · intro hr
      simp [WorkModeStep, hgate, hd, hL, hP, hS, hr]

/-- A dimmable exhaust actuator with bounds `[20, 80]`, currently in
WorkMode and not running. -/
def c3dev : DevState :=
  { deviceType := "Exhaust", isDimmable := true, isSpecialDevice := false,
    isAcInfinDev := false, isRunning := false, inWorkMode := true,
    inActiveControl := false, is_minmax_active := true,
    voltageFromNumber := false, voltage := none, dutyCycle := some 20,
    minVoltage := none, maxVoltage := none, minDuty := some 20,
    maxDuty := some 80, initVoltage := 0, islightON := none,
    sunPhaseActive := none, pendingWorkMode := none,
    switches := [], options := [], sensors := [] }

/-- C3, witness: the WorkMode-exit theorem applied to a non-running
dimmable exhaust with bounds `[20, 80]`: the duty cycle is restored to 80
but no `turn_on` is issued, and the same actuator marked running does get
the `turn_on` at 80. -/
theorem c3_workmode_exit_no_autostart_witness :
    WorkModeStep c3dev false =
      some ({ c3dev with inWorkMode := false, dutyCycle := some 80 }, []) ∧
    WorkModeStep { c3dev with isRunning := true } false =
      some ({ { c3dev with isRunning := true } with
                inWorkMode := false, dutyCycle := some 80 },
        [DevAction.turnOnPercentage (ratTrunc 80)]) := by
  constructor
  · exact ((c3_workmode_exit_no_autostart c3dev 80 (by decide)).1 rfl
      (by decide) rfl).1 rfl
  · have h := ((c3_workmode_exit_no_autostart
      { c3dev with isRunning := true } 80 (by decide)).1 rfl
      (by decide) rfl).2 rfl
    simpa using h

/-- C10: for a non-special, non-AC-Infinity actuator of kind Exhaust,
Intake or CO2 whose dimmable flag is set, `turn_off` returns without
issuing any service call and leaves the whole device state — in
particular `isRunning` and the control value — unchanged; consequently
the emergency-stop loop, which shuts devices down through `turn_off`,
leaves such a device untouched. -/
theorem c10_turn_off_dimmable_noop (s : DevState)
    (hac : s.isAcInfinDev = false) (_hsp : s.isSpecialDevice = false)
    (hd : s.isDimmable = true)
    (ht : s.deviceType = "Exhaust" ∨ s.deviceType = "Intake" ∨
      s.deviceType = "CO2") :
    turn_off s = (s, []) ∧
    ∀ others : List DevState,
      emergencyStopDevices (s :: others) =
        (s, []) :: emergencyStopDevices others := by
  have hmain : turn_off s = (s, []) := by
    unfold turn_off
    rcases ht with h | h | h <;>
      cases hs : s.switches with
      | nil => simp [hac, h, hs]
      | cons e rest => simp [hac, h, hs, hd]
  refine ⟨hmain, ?_⟩
  intro others
  simp [emergencyStopDevices, hmain]

/-- A dimmable exhaust with one fan switch entity, as the emergency stop
would see it. -/
def c10dev : DevState :=
  { c3dev with isRunning := true,
               switches := [{ entity_id := "fan.exhaust_fan",
                              value := RawValue.invalid "on" }] }

/-- C10, witness: the no-op theorem applied to a running dimmable exhaust
with a switch entity: `turn_off` issues nothing and the device stays
running, also under the emergency-stop loop. -/
theorem c10_turn_off_dimmable_noop_witness :
    turn_off c10dev = (c10dev, []) ∧
    emergencyStopDevices [c10dev] = [(c10dev, [])] := by
  have h := c10_turn_off_dimmable_noop c10dev rfl rfl rfl (Or.inl rfl)
  exact ⟨h.1, h.2 []⟩

/-- A raw value in the scope of the error-handling claim: a `None`
equivalent or a string that fails numeric conversion (the
unavailable/unknown sentinels among them). -/
def invalidRaw : RawValue → Bool
  | RawValue.noneVal => true
  | RawValue.invalid _ => true
  | _ => false

theorem processSensor_invalid (s : DevState) (e : Entity)
    (h : invalidRaw e.value = true) : processSensor s e = s := by
  unfold processSensor
  cases hv : e.value with
  | number q => rw [hv] at h; simp [invalidRaw] at h
  | absent => rw [hv] at h; simp [invalidRaw] at h
  | noneVal => simp [hv]
  | invalid str => simp [hv, convert_to_int]

theorem foldl_processSensor_invalid (l : List Entity) (s : DevState)
    (h : ∀ e ∈ l, invalidRaw e.value = true) :
    l.foldl processSensor s = s := by
  induction l generalizing s with
  | nil => rfl
  | cons a t ih =>
      rw [List.foldl_cons, processSensor_invalid s a (h a (by simp))]
      exact ih s (fun e he => h e (by simp [he]))

theorem processOptions_invalid (l : List Entity) (s : DevState)
    (h : ∀ e ∈ l, invalidRaw e.value = true) :
    (processOptions s l).voltage = s.voltage ∧
    (processOptions s l).dutyCycle = s.dutyCycle ∧
    (processOptions s l).isRunning = s.isRunning := by
  induction l generalizing s with
  | nil => exact ⟨rfl, rfl, rfl⟩
  | cons a t ih =>
      have ha := h a (by simp)
      have ht : ∀ e ∈ t, invalidRaw e.value = true :=
        fun e he => h e (by simp [he])
      unfold processOptions
      by_cases hrel : relevantOptionId a.entity_id
      · cases hv : a.value with
        | number q => rw [hv] at ha; simp [invalidRaw] at ha
        | absent => rw [hv] at ha; simp [invalidRaw] at ha
        | noneVal =>
            simp only [hrel, if_true, hv]
            by_cases hL : s.deviceType = "Light"
            · rw [if_pos hL]
              simp only [convert_to_int]
              exact ih _ ht
            · rw [if_neg hL]
              simp only [convert_to_int]
              exact ih s ht
        | invalid str =>
            simp only [hrel, if_true, hv]
            by_cases hL : s.deviceType = "Light"
            · rw [if_pos hL]
              simp only [convert_to_int]
              exact ih _ ht
            · rw [if_neg hL]
              simp only [convert_to_int]
              exact ih s ht
      · rw [if_neg hrel]
        exact ih s ht

/-- C9: a feedback pass whose relevant raw values are all invalid
sentinels or non-numeric strings leaves `voltage`, `dutyCycle` and
`isRunning` untouched — the update is skipped without actuator mutation,
and the embedding is total, so no exception escapes. -/
theorem c9_invalid_update_no_mutation (s : DevState)
    (hs : ∀ e ∈ s.sensors, invalidRaw e.value = true)
    (ho : ∀ e ∈ s.options, invalidRaw e.value = true) :
    (checkForControlValue s).voltage = s.voltage ∧
    (checkForControlValue s).dutyCycle = s.dutyCycle ∧
    (checkForControlValue s).isRunning = s.isRunning := by
  unfold checkForControlValue
  by_cases h1 : s.inActiveControl
  · simp [h1]
  · by_cases h2 : s.isDimmable
    · by_cases h3 : s.sensors = [] ∧ s.options = []
      · simp [h1, h2, h3]
      · have hfold : s.sensors.foldl processSensor s = s :=
          foldl_processSensor_invalid s.sensors s hs
        rw [if_neg h1, if_neg h3]
        simp only [h2, Bool.not_true, Bool.false_eq_true, if_false, hfold]
        simpa using processOptions_invalid s.options s ho
    · simp [h1, h2]

/-- A dimmable exhaust whose duty sensor reads the `"unavailable"`
sentinel and whose duty option reads `None`. -/
def c9dev : DevState :=
  { c3dev with
      dutyCycle := some 40,
      sensors := [{ entity_id := "sensor.exhaust_duty",
                    value := RawValue.invalid "unavailable" }],
      options := [{ entity_id := "number.exhaust_duty",
                    value := RawValue.noneVal }] }

/-- C9, witness: the no-mutation theorem applied to a device whose only
feedback values are an `"unavailable"` sentinel and a `None`. -/
theorem c9_invalid_update_no_mutation_witness :
    (checkForControlValue c9dev).voltage = c9dev.voltage ∧
    (checkForControlValue c9dev).dutyCycle = c9dev.dutyCycle ∧
    (checkForControlValue c9dev).isRunning = c9dev.isRunning :=
  c9_invalid_update_no_mutation c9dev (by decide) (by decide)

/-- A dimmable CO2 device receiving a valid numeric feedback update of 40
on its duty sensor. -/
def c5dev : DevState :=
  { c3dev with
      deviceType := "CO2", dutyCycle := some 0,
      minDuty := none, maxDuty := none,
      sensors := [{ entity_id := "sensor.co2_duty",
                    value := RawValue.number 40 }] }

/-- C5, counterexample: a dimmable CO2 actuator (not a Light) gets a valid
numeric duty update of 40 on a relevant duty sensor, yet the derivation
stores nothing at all — the sensor path only writes `dutyCycle` for the
kinds Exhaust/Intake/Ventilation/Humidifier/Dehumidifier, so "every other
kind" fails: the state is returned unchanged and `dutyCycle` is not 40. -/
theorem c5_control_value_routing_counterexample :
    c5dev.isDimmable = true ∧ c5dev.inActiveControl = false ∧
    relevantSensorId "sensor.co2_duty" = true ∧
    convert_to_int (RawValue.number 40) c5dev.isAcInfinDev = some 40 ∧
    c5dev.deviceType = "CO2" ∧
    checkForControlValue c5dev = c5dev ∧
    c5dev.dutyCycle ≠ some 40 ∧ c5dev.voltage ≠ some 40 := by
  have hrel : relevantSensorId "sensor.co2_duty" = true := by decide
  have hconv : convert_to_int (RawValue.number 40) false = some 40 := by
    norm_num [convert_to_int, ratTrunc]
  refine ⟨rfl, rfl, hrel, hconv, rfl, ?_, by decide, by decide⟩
  simp [checkForControlValue, c5dev, c3dev, processSensor, processOptions,
    hrel, hconv]

/-- The stored control value for a numeric reading `q`: converted via
`int(float(...))` with the ×10 scaling applied exactly when `flag` is
set (the payload of `convert_to_int`). -/
def scaledReading (flag : Bool) (q : ℚ) : ℚ :=
  ((ratTrunc (if flag then q * 10 else q) : ℤ) : ℚ)

/-- C5 (amended): a valid numeric feedback update on a relevant
duty/intensity entity is converted to a number (truncated to an integer).
On the sensor path the value is multiplied by 10 exactly when the
AC-Infinity special-hardware flag is set, and it is stored into `voltage`
when the kind is Light and into `dutyCycle` only for the kinds
Exhaust/Intake/Ventilation/Humidifier/Dehumidifier — a sensor update for
any other kind leaves the state unchanged.  On the number-option path a
non-Light kind stores into `dutyCycle` with the ×10 scaling exactly when
the flag is set, while a Light always gets the ×10 scaling there,
regardless of the flag. -/
theorem c5_control_value_routing_amended (s : DevState) (q : ℚ)
    (eid : String)
    (hctl : s.inActiveControl = false) (hdim : s.isDimmable = true) :
    (s.sensors = [{ entity_id := eid, value := RawValue.number q }] →
      s.options = [] → relevantSensorId eid = true →
      s.deviceType = "Light" → s.minVoltage = none →
      checkForControlValue s =
        { s with voltage := some (scaledReading s.isAcInfinDev q) }) ∧
    (s.sensors = [{ entity_id := eid, value := RawValue.number q }] →
      s.options = [] → relevantSensorId eid = true →
      (s.deviceType = "Exhaust" ∨ s.deviceType = "Intake" ∨
        s.deviceType = "Ventilation" ∨ s.deviceType = "Humidifier" ∨
        s.deviceType = "Dehumidifier") → s.minDuty = none →
      checkForControlValue s =
        { s with dutyCycle := some (scaledReading s.isAcInfinDev q) }) ∧
    (s.sensors = [{ entity_id := eid, value := RawValue.number q }] →
      s.options = [] → relevantSensorId eid = true →
      s.deviceType ≠ "Light" →
      ¬(s.deviceType = "Exhaust" ∨ s.deviceType = "Intake" ∨
        s.deviceType = "Ventilation" ∨ s.deviceType = "Humidifier" ∨
        s.deviceType = "Dehumidifier") →
      checkForControlValue s = s) ∧
    (s.sensors = [] →
      s.options = [{ entity_id := eid, value := RawValue.number q }] →
      relevantOptionId eid = true →
      s.deviceType = "Light" → s.is_minmax_active = false →
      checkForControlValue s =
        { s with voltageFromNumber := true,
                 voltage := some (scaledReading true q) }) ∧
    (s.sensors = [] →
      s.options = [{ entity_id := eid, value := RawValue.number q }] →
      relevantOptionId eid = true →
      s.deviceType ≠ "Light" → s.is_minmax_active = false →
      checkForControlValue s =
        { s with dutyCycle := some (scaledReading s.isAcInfinDev q) }) := by
  refine ⟨?_, ?_, ?_, ?_, ?_⟩
  · intro hsen hopt hrel hL hminV
    simp [checkForControlValue, hctl, hdim, hsen, hopt, processSensor,
      processOptions, hrel, hL, hminV, convert_to_int, scaledReading]
  · intro hsen hopt hrel hk hminD
    rcases hk with h | h | h | h | h <;>
      simp [checkForControlValue, hctl, hdim, hsen, hopt, processSensor,
        processOptions, hrel, h, hminD, convert_to_int, scaledReading]
  · intro hsen hopt hrel hL hk
    simp [checkForControlValue, hctl, hdim, hsen, hopt, processSensor,
      processOptions, hrel, hL, hk, convert_to_int, scaledReading]
  · intro hsen hopt hrel hL hmm
    simp [checkForControlValue, hctl, hdim, hsen, hopt, processSensor,
      processOptions, hrel, hL, hmm, convert_to_int, scaledReading]
  · intro hsen hopt hrel hL hmm
    simp [checkForControlValue, hctl, hdim, hsen, hopt, processSensor,
      processOptions, hrel, hL, hmm, convert_to_int, scaledReading]

/-- A dimmable exhaust (no bounds set) with a numeric duty-sensor reading
of 40. -/
def c5exhaust : DevState :=
  { c3dev with
      minDuty := none, maxDuty := none,
      sensors := [{ entity_id := "sensor.exhaust_duty",
                    value := RawValue.number 40 }] }

/-- A dimmable non-AC-Infinity light with a numeric intensity option
reading of 5. -/
def c5light : DevState :=
  { c3dev with
      deviceType := "Light", is_minmax_active := false,
      minDuty := none, maxDuty := none,
      options := [{ entity_id := "number.light_intensity",
                    value := RawValue.number 5 }] }

/-- C5, witness: the amended routing theorem at an exhaust whose duty
sensor reads 40 (stored unscaled, flag unset) and at a light whose
intensity option reads 5 (stored as 50 — ×10 although the flag is
unset). -/
theorem c5_control_value_routing_amended_witness :
    checkForControlValue c5exhaust =
      { c5exhaust with dutyCycle := some 40 } ∧
    checkForControlValue c5light =
      { c5light with voltageFromNumber := true, voltage := some 50 } := by
  constructor
  · have h := (c5_control_value_routing_amended c5exhaust 40
      "sensor.exhaust_duty" rfl rfl).2.1 rfl rfl (by decide) (Or.inl rfl) rfl
    norm_num [scaledReading, ratTrunc] at h
    exact h
  · have h := (c5_control_value_routing_amended c5light 5
      "number.light_intensity" rfl rfl).2.2.2.1 rfl rfl (by decide) rfl rfl
    norm_num [scaledReading, ratTrunc] at h
    exact h
